import Mathlib

/-!
Verification of the SQLGem schema-model maintenance code.

The definitions below are a shallow embedding of the TypeScript sources:
the schema data model (extension.ts, webview/types.ts), the interactive
foreign-key connection handler (the webview onConnect callback), the
table delete/update handlers (extension.ts), the index editor guard
(TableEditorSidebar.tsx) and the DDL generator (extension.ts).

JavaScript optional fields become Option types; JavaScript truthiness of
optional numbers, booleans and strings is modelled explicitly.  All
operations are pure state transformers: a handler that mutates the global
database in place becomes a function from the old database to the new one,
and a handler that returns early with an error message returns the
untouched database together with a typed error value.
-/

namespace SQLGem

/-- A (schema, table, column) triple: both the payload of a column's
foreignKeyRef and the resolved endpoint of an interactive connection. -/
structure ColRef where
  schema : String
  table : String
  column : String
deriving DecidableEq, Repr

/-- Column of a table, mirroring the Column interface of extension.ts plus
the isUniqueConstraint flag used by the webview App. -/
structure Column where
  name : String
  type : String
  length : Option Nat := none
  precision : Option Nat := none
  scale : Option Nat := none
  isPrimaryKey : Bool := false
  isForeignKey : Bool := false
  isNullable : Bool := true
  isUnique : Option Bool := none
  isUniqueConstraint : Option Bool := none
  defaultValue : Option String := none
  foreignKeyRef : Option ColRef := none
  pkName : Option String := none
  fkConstraintName : Option String := none
  uniqueConstraintName : Option String := none
deriving DecidableEq, Repr

/-- Table-level primary key (name?, columns, isClustered?). -/
structure PrimaryKey where
  name : Option String := none
  columns : List String
  isClustered : Option Bool := none
deriving DecidableEq, Repr

/-- Table-level unique constraint. -/
structure UniqueConstraint where
  name : String
  columns : List String
deriving DecidableEq, Repr

/-- Secondary index of a table. -/
structure Index where
  name : String
  columns : List String
  isClustered : Bool
  isUnique : Bool
deriving DecidableEq, Repr

/-- Table: columns plus optional structured constraints and an opaque
diagram position. -/
structure Table where
  name : String
  columns : List Column
  primaryKey : Option PrimaryKey := none
  uniqueConstraints : Option (List UniqueConstraint) := none
  indexes : Option (List Index) := none
  x : Option Int := none
  y : Option Int := none
deriving DecidableEq, Repr

/-- Schema: a named, ordered list of tables. -/
structure Schema where
  name : String
  tables : List Table
deriving DecidableEq, Repr

/-- Database: a named, ordered list of schemas. -/
structure Database where
  name : String
  schemas : List Schema
deriving DecidableEq, Repr

/-- JavaScript truthiness of an optional boolean field. -/
def optBoolTruthy : Option Bool → Bool
  | some b => b
  | none => false

/-- JavaScript truthiness of an optional number field (0 is falsy). -/
def optNatTruthy : Option Nat → Bool
  | some n => n != 0
  | none => false

/-- JavaScript truthiness of an optional string field (the empty string is
falsy). -/
def optStrTruthy : Option String → Bool
  | some s => s != ""
  | none => false

/-- JavaScript `a || b` on an optional string: the stored name when it is
truthy, the fallback otherwise. -/
def orElseStr (a : Option String) (b : String) : String :=
  match a with
  | some s => if s == "" then b else s
  | none => b

/-- isColumnReferenceable from the webview onConnect handler: column-level
PK flag or isUniqueConstraint === true, membership in the table-level
primary key, a single-column unique constraint, or a single-column unique
index. -/
def isColumnReferenceable (column : Column) (table : Table) : Bool :=
  if column.isPrimaryKey || column.isUniqueConstraint == some true then
    true
  else if (match table.primaryKey with
           | some pk => pk.columns.contains column.name
           | none => false) then
    true
  else if (match table.uniqueConstraints with
           | some ucs => ucs.any fun uc =>
               uc.columns.length == 1 && uc.columns.contains column.name
           | none => false) then
    true
  else
    match table.indexes with
    | some idxs => idxs.any fun idx =>
        idx.isUnique && idx.columns.length == 1 && idx.columns.contains column.name
    | none => false

/-- One step of normalizeType: delete the leftmost, greedy match of an
open-paren .. close-paren group, where the dot of the regex does not cross
a newline. -/
def stripFirstParenGroup : List Char → List Char
  | [] => []
  | c :: rest =>
    let seg := rest.takeWhile fun ch => ch != '\n'
    if c == '(' && seg.contains ')' then
      (seg.reverse.takeWhile fun ch => ch != ')').reverse ++ rest.drop seg.length
    else
      c :: stripFirstParenGroup rest

/-- normalizeType from onConnect: strip the parenthesized size suffix and
uppercase, so that only base types are compared. -/
def normalizeType (t : String) : String :=
  String.mk ((stripFirstParenGroup t.data).map Char.toUpper)

/-- Typed rejection reasons of the onConnect handler, in the order the
source checks them. -/
inductive ConnectError
  | schemaNotFound
  | tableNotFound
  | columnNotFound
  | neitherUnique
  | ambiguous
  | duplicateForeignKey
  | existingForeignKey
  | circularForeignKey
  | typeMismatch
deriving DecidableEq, Repr

/-- Result of a connect attempt: the (possibly updated) database and the
rejection, if any.  Every rejecting branch of the source returns before
touching the database, so a result with an error carries the input
database unchanged. -/
structure ConnectResult where
  db : Database
  error : Option ConnectError
deriving DecidableEq, Repr

/-- The column update of a successful connect: the FK column gains the
isForeignKey flag, the foreignKeyRef to the referenced side, and the
auto-generated constraint name. -/
def connectColumnUpdate (refSide fkSide : ColRef) (col : Column) : Column :=
  if col.name == fkSide.column then
    { col with
        isForeignKey := true
        foreignKeyRef := some ⟨refSide.schema, refSide.table, refSide.column⟩
        fkConstraintName := some ("FK_" ++ fkSide.table ++ "_" ++ fkSide.column) }
  else col

/-- The database produced by a successful connect: the FK table gets its
columns rewritten by connectColumnUpdate and is substituted for every
equally named table in every equally named schema, exactly as the webview
rebuilds its local state. -/
def connectSuccessDb (db : Database) (refSide fkSide : ColRef)
    (fkTable : Table) : Database :=
  let updatedTable :=
    { fkTable with columns := fkTable.columns.map (connectColumnUpdate refSide fkSide) }
  { db with
      schemas := db.schemas.map fun schema =>
        if schema.name == fkSide.schema then
          { schema with
              tables := schema.tables.map fun t =>
                if t.name == fkSide.table then updatedTable else t }
        else schema }

/-- Validation and mutation part of onConnect, after the foreign-key
direction has been resolved: duplicate / existing FK on the FK column,
mirrored reverse reference on the referenced column, base-type equality,
then the functional update of the FK column inside its table and of that
table inside the database. -/
def connectApply (db : Database) (refSide : ColRef) (refColumn : Column)
    (fkSide : ColRef) (fkTable : Table) (fkColumn : Column) : ConnectResult :=
  if fkColumn.isForeignKey then
    match fkColumn.foreignKeyRef with
    | some r =>
      if r.schema == refSide.schema && r.table == refSide.table &&
         r.column == refSide.column then
        ⟨db, some .duplicateForeignKey⟩
      else
        ⟨db, some .existingForeignKey⟩
    | none => ⟨db, some .existingForeignKey⟩
  else if refColumn.isForeignKey &&
      (match refColumn.foreignKeyRef with
       | some r => r.schema == fkSide.schema && r.table == fkSide.table &&
           r.column == fkSide.column
       | none => false) then
    ⟨db, some .circularForeignKey⟩
  else if normalizeType fkColumn.type != normalizeType refColumn.type then
    ⟨db, some .typeMismatch⟩
  else
    ⟨connectSuccessDb db refSide fkSide fkTable, none⟩

/-- The onConnect handler of the webview App: resolve both endpoints,
compute referenceability of each side, reject when not exactly one side is
referenceable, pick the foreign-key direction from the constraints alone,
then validate and apply. -/
def connectColumns (db : Database) (side1 side2 : ColRef) : ConnectResult :=
  match db.schemas.find? (fun s => s.name == side1.schema),
        db.schemas.find? (fun s => s.name == side2.schema) with
  | some schema1, some schema2 =>
    match schema1.tables.find? (fun t => t.name == side1.table),
          schema2.tables.find? (fun t => t.name == side2.table) with
    | some table1, some table2 =>
      match table1.columns.find? (fun c => c.name == side1.column),
            table2.columns.find? (fun c => c.name == side2.column) with
      | some column1, some column2 =>
        let column1IsPKOrUnique := isColumnReferenceable column1 table1
        let column2IsPKOrUnique := isColumnReferenceable column2 table2
        if !column1IsPKOrUnique && !column2IsPKOrUnique then
          ⟨db, some .neitherUnique⟩
        else if column1IsPKOrUnique && column2IsPKOrUnique then
          ⟨db, some .ambiguous⟩
        else if column1IsPKOrUnique then
          connectApply db side1 column1 side2 table2 column2
        else
          connectApply db side2 column2 side1 table1 column1
      | _, _ => ⟨db, some .columnNotFound⟩
    | _, _ => ⟨db, some .tableNotFound⟩
  | _, _ => ⟨db, some .schemaNotFound⟩

/-- Resolve an endpoint to its column the same way the handlers do: first
schema of that name, first table of that name in it, first column of that
name in it. -/
def lookupColumn (db : Database) (e : ColRef) : Option Column :=
  (db.schemas.find? fun s => s.name == e.schema).bind fun sc =>
    (sc.tables.find? fun t => t.name == e.table).bind fun t =>
      t.columns.find? fun c => c.name == e.column

/-- Typed rejections of the extension-side table handlers. -/
inductive OpError
  | schemaNotFound
  | tableNotFound
deriving DecidableEq, Repr

/-- Placeholder schema for positional access that is always in range. -/
def defaultSchema : Schema := { name := "", tables := [] }

/-- Placeholder table for positional access that is always in range. -/
def defaultTable : Table := { name := "", columns := [] }

/-- Placeholder column for positional access that is always in range. -/
def defaultColumn : Column := { name := "", type := "" }

/-- Cleanup step of handleDeleteTable: a column that is flagged as a
foreign key and whose foreignKeyRef targets the deleted table loses its
isForeignKey flag, its foreignKeyRef and its fkConstraintName; any other
column is returned as is. -/
def clearIfRefTargets (schemaName tableName : String) (col : Column) : Column :=
  if col.isForeignKey &&
     (match col.foreignKeyRef with
      | some r => r.schema == schemaName && r.table == tableName
      | none => false) then
    { col with isForeignKey := false, foreignKeyRef := none, fkConstraintName := none }
  else col

/-- handleDeleteTable from extension.ts: resolve the schema and the table
index, clean up foreign keys referencing the table across the whole
database, then splice the table out of its schema. -/
def handleDeleteTable (db : Database) (schemaName tableName : String) :
    Database × Option OpError :=
  match db.schemas.findIdx? (fun s => s.name == schemaName) with
  | none => (db, some .schemaNotFound)
  | some si =>
    match (db.schemas.getD si defaultSchema).tables.findIdx?
        (fun t => t.name == tableName) with
    | none => (db, some .tableNotFound)
    | some ti =>
      let cleaned : Database :=
        { db with
            schemas := db.schemas.map fun s =>
              { s with
                  tables := s.tables.map fun t =>
                    { t with
                        columns := t.columns.map
                          (clearIfRefTargets schemaName tableName) } } }
      let sc := cleaned.schemas.getD si defaultSchema
      ({ cleaned with
          schemas := cleaned.schemas.set si
            { sc with tables := sc.tables.eraseIdx ti } }, none)

/-- Per-column step of updateForeignKeyReferences: a foreign-key column
whose foreignKeyRef points at the renamed primary-key column is repointed
to the new column name and is itself renamed to that name. -/
def repointColumn (schemaName tableName oldColumnName newColumnName : String)
    (col : Column) : Column :=
  if col.isForeignKey then
    match col.foreignKeyRef with
    | some r =>
      if r.schema == schemaName && r.table == tableName &&
         r.column == oldColumnName then
        { col with
            foreignKeyRef := some { r with column := newColumnName }
            name := newColumnName }
      else col
    | none => col
  else col

/-- The shape of every whole-database column rewrite in the handlers: the
same per-column function applied to every column of every table of every
schema, all other fields untouched. -/
def mapColumnsDb (f : Column → Column) (db : Database) : Database :=
  { db with
      schemas := db.schemas.map fun schema =>
        { schema with
            tables := schema.tables.map fun table =>
              { table with columns := table.columns.map f } } }

/-- updateForeignKeyReferences from extension.ts: find the new primary-key
column of the updated table (bailing out if there is none) and repoint
every matching foreign-key reference in the whole database. -/
def updateForeignKeyReferences (db : Database)
    (schemaName tableName oldColumnName : String) (updatedTable : Table) :
    Database :=
  match updatedTable.columns.find? (fun c => c.isPrimaryKey) with
  | none => db
  | some newPrimaryKeyColumn =>
    let newColumnName := newPrimaryKeyColumn.name
    mapColumnsDb (repointColumn schemaName tableName oldColumnName newColumnName) db

/-- The amended claim's per-column description of the C4 repointing: a
column flagged as a foreign key whose reference targets one of the removed
primary-key column names of the old table is repointed to the new
primary-key column name and renamed to it; every other column is
untouched. -/
def repointColumnSpec (schemaName tableName : String) (missing : List String)
    (newName : String) (col : Column) : Column :=
  if col.isForeignKey then
    match col.foreignKeyRef with
    | some r =>
      if r.schema == schemaName && r.table == tableName &&
         missing.contains r.column then
        { col with
            foreignKeyRef := some { r with column := newName }
            name := newName }
      else col
    | none => col
  else col

/-- The primary-key column names of the old table that have no same-named
column in the replacement table. -/
def missingPkNames (oldCols : List Column) (newTable : Table) : List String :=
  (oldCols.filter fun c =>
    c.isPrimaryKey && (newTable.columns.find? fun c2 => c2.name == c.name).isNone).map
    fun c => c.name

/-- UpdateTable as the amended claim reads: repoint and rename, across the
whole database, every foreign-key-flagged column whose reference targets a
removed primary-key column of the old table, then substitute the new
table. -/
def updateTableSpec (db : Database) (schemaName oldTableName : String)
    (newTable : Table) (si ti : Nat) : Database :=
  let oldTable := (db.schemas.getD si defaultSchema).tables.getD ti defaultTable
  let missing := missingPkNames oldTable.columns newTable
  let newName :=
    match newTable.columns.find? (fun c => c.isPrimaryKey) with
    | some c => c.name
    | none => ""
  let repointed :=
    mapColumnsDb (repointColumnSpec schemaName oldTableName missing newName) db
  let sc := repointed.schemas.getD si defaultSchema
  { repointed with
      schemas := repointed.schemas.set si { sc with tables := sc.tables.set ti newTable } }

/-- One iteration of the handleUpdateTable loop: read the current state of
column k of the old table back from the evolving database (the source
iterates over live, in-place mutated column objects), and run the
foreign-key repointing when that column is a primary key whose name is
gone from the new table while the new table still has a primary key. -/
def updateTableStep (schemaName oldTableName : String) (table : Table)
    (si ti : Nat) (acc : Database) (k : Nat) : Database :=
  let oldCol :=
    ((acc.schemas.getD si defaultSchema).tables.getD ti defaultTable).columns.getD
      k defaultColumn
  if oldCol.isPrimaryKey &&
     (table.columns.find? fun c => c.name == oldCol.name).isNone &&
     (table.columns.any fun c => c.isPrimaryKey) then
    updateForeignKeyReferences acc schemaName oldTableName oldCol.name table
  else acc

/-- handleUpdateTable from extension.ts.  The source iterates over the live
column array of the old table while updateForeignKeyReferences mutates the
very same column objects in place, so the loop is modelled positionally
through updateTableStep. -/
def handleUpdateTable (db : Database) (schemaName oldTableName : String)
    (table : Table) : Database × Option OpError :=
  match db.schemas.findIdx? (fun s => s.name == schemaName) with
  | none => (db, some .schemaNotFound)
  | some si =>
    match (db.schemas.getD si defaultSchema).tables.findIdx?
        (fun t => t.name == oldTableName) with
    | none => (db, some .tableNotFound)
    | some ti =>
      let oldTable := (db.schemas.getD si defaultSchema).tables.getD ti defaultTable
      let afterLoop := (List.range oldTable.columns.length).foldl
        (updateTableStep schemaName oldTableName table si ti) db
      let sc := afterLoop.schemas.getD si defaultSchema
      ({ afterLoop with
          schemas := afterLoop.schemas.set si
            { sc with tables := sc.tables.set ti table } }, none)

/-- Typed rejections of the sidebar addIndex handler. -/
inductive AddIndexError
  | missingNameOrColumns
  | clusteredConflict
deriving DecidableEq, Repr

/-- getTotalClusteredIndexes from TableEditorSidebar.tsx: one for a primary
key whose isClustered flag is truthy, plus every index flagged clustered. -/
def getTotalClusteredIndexes (t : Table) : Nat :=
  (match t.primaryKey with
   | some pk => if optBoolTruthy pk.isClustered then 1 else 0
   | none => 0) +
  (match t.indexes with
   | some idxs => (idxs.filter fun idx => idx.isClustered).length
   | none => 0)

/-- canAddClusteredIndex from TableEditorSidebar.tsx. -/
def canAddClusteredIndex (t : Table) : Bool :=
  getTotalClusteredIndexes t < 1

/-- addIndex from TableEditorSidebar.tsx: reject silently on a missing name
or empty column list, reject a clustered index when the table already has a
clustered structure, otherwise append the new index. -/
def addIndex (t : Table) (newIndexName : String) (newIndexColumns : List String)
    (newIndexIsClustered newIndexIsUnique : Bool) : Table × Option AddIndexError :=
  if newIndexName == "" || newIndexColumns.length == 0 then
    (t, some .missingNameOrColumns)
  else if newIndexIsClustered && !canAddClusteredIndex t then
    (t, some .clusteredConflict)
  else
    ({ t with
        indexes := some ((t.indexes.getD []) ++
          [{ name := newIndexName, columns := newIndexColumns,
             isClustered := newIndexIsClustered, isUnique := newIndexIsUnique }]) },
     none)

/-- Type rendering of generateMSSQLTable: only VARCHAR and NVARCHAR get a
(length) suffix and only DECIMAL gets a (precision[,scale]) suffix; every
other type token is emitted bare. -/
def columnTypeStr (col : Column) : String :=
  if (col.type == "VARCHAR" || col.type == "NVARCHAR") && optNatTruthy col.length then
    col.type ++ "(" ++ toString (col.length.getD 0) ++ ")"
  else if col.type == "DECIMAL" && optNatTruthy col.precision then
    match col.scale with
    | some s => "DECIMAL(" ++ toString (col.precision.getD 0) ++ "," ++ toString s ++ ")"
    | none => "DECIMAL(" ++ toString (col.precision.getD 0) ++ ")"
  else col.type

/-- One column line of a CREATE TABLE body. -/
def columnDef (col : Column) : String :=
  let base := "    [" ++ col.name ++ "] " ++ columnTypeStr col
  if !col.isNullable || col.isPrimaryKey then base ++ " NOT NULL" else base

/-- generateMSSQLTable from extension.ts: the CREATE TABLE statement of one
table (optionally wrapped in an existence check), the primary-key table
constraint, and the legacy per-column UNIQUE constraint statements. -/
def generateMSSQLTable (schemaName : String) (table : Table)
    (useIfNotExists : Bool) : String :=
  let columnsDefs := String.intercalate ",\n" (table.columns.map columnDef)
  let base := "-- Table: " ++ schemaName ++ "." ++ table.name ++ "\n" ++
    "-- Generated by SQLGem\n\n"
  let create :=
    if useIfNotExists then
      "IF NOT EXISTS (SELECT * FROM sys.objects WHERE object_id = OBJECT_ID(N'[" ++
      schemaName ++ "].[" ++ table.name ++ "]') AND type = 'U')\n" ++
      "BEGIN\n" ++
      "    CREATE TABLE [" ++ schemaName ++ "].[" ++ table.name ++ "] (\n" ++
      columnsDefs
    else
      "CREATE TABLE [" ++ schemaName ++ "].[" ++ table.name ++ "] (\n" ++
      columnsDefs
  let pkCols : List String :=
    match table.primaryKey with
    | some pk => pk.columns.map fun c => "[" ++ c ++ "]"
    | none => (table.columns.filter fun c => c.isPrimaryKey).map fun c =>
        "[" ++ c.name ++ "]"
  let pkName : String :=
    match table.primaryKey with
    | some pk => orElseStr pk.name ("PK_" ++ table.name)
    | none =>
      match table.columns.find? (fun c => c.isPrimaryKey && optStrTruthy c.pkName) with
      | some pkCol => pkCol.pkName.getD ("PK_" ++ table.name)
      | none => "PK_" ++ table.name
  let pkIsClustered : Bool :=
    match table.primaryKey with
    | some pk => pk.isClustered != some false
    | none => true
  let withPk :=
    if pkCols.length > 0 then
      create ++ ",\n    CONSTRAINT [" ++ pkName ++ "] PRIMARY KEY " ++
      (if pkIsClustered then "CLUSTERED" else "NONCLUSTERED") ++
      " (" ++ String.intercalate ", " pkCols ++ ")"
    else create
  let closed := withPk ++ "\n);\n" ++ (if useIfNotExists then "END\n" else "")
  let uniqueColumns := table.columns.filter fun c =>
    optBoolTruthy c.isUnique && !c.isPrimaryKey
  let ucPart := String.join (uniqueColumns.map fun col =>
    let ucName := orElseStr col.uniqueConstraintName
      ("UQ_" ++ table.name ++ "_" ++ col.name)
    if useIfNotExists then
      "\nIF NOT EXISTS (\n    SELECT 1 FROM sys.key_constraints\n    WHERE name = N'" ++
      ucName ++ "'\n    AND parent_object_id = OBJECT_ID(N'[" ++ schemaName ++
      "].[" ++ table.name ++ "]')\n)\nBEGIN\n    ALTER TABLE [" ++ schemaName ++
      "].[" ++ table.name ++ "]\n        ADD CONSTRAINT [" ++ ucName ++
      "] UNIQUE ([" ++ col.name ++ "]);\nEND\n"
    else
      "\nALTER TABLE [" ++ schemaName ++ "].[" ++ table.name ++
      "]\n    ADD CONSTRAINT [" ++ ucName ++ "] UNIQUE ([" ++ col.name ++ "]);\n")
  base ++ closed ++ ucPart

/-- One collected foreign-key statement of the generator. -/
def fkStatement (useIfNotExists : Bool) (schemaName tableName : String)
    (col : Column) (ref : ColRef) : String :=
  let fkName := orElseStr col.fkConstraintName ("FK_" ++ tableName ++ "_" ++ col.name)
  if useIfNotExists then
    "IF NOT EXISTS (SELECT * FROM sys.foreign_keys WHERE name = N'" ++ fkName ++
    "' AND parent_object_id = OBJECT_ID(N'[" ++ schemaName ++ "].[" ++ tableName ++
    "]'))\nBEGIN\n    ALTER TABLE [" ++ schemaName ++ "].[" ++ tableName ++
    "]\n        ADD CONSTRAINT [" ++ fkName ++ "]\n        FOREIGN KEY ([" ++
    col.name ++ "])\n        REFERENCES [" ++ ref.schema ++ "].[" ++ ref.table ++
    "]([" ++ ref.column ++ "]);\nEND"
  else
    "ALTER TABLE [" ++ schemaName ++ "].[" ++ tableName ++
    "]\n    ADD CONSTRAINT [" ++ fkName ++ "]\n    FOREIGN KEY ([" ++ col.name ++
    "])\n    REFERENCES [" ++ ref.schema ++ "].[" ++ ref.table ++ "]([" ++
    ref.column ++ "]);"

/-- The foreign-key statements collected across every schema, table and
column, in declaration order. -/
def allForeignKeys (db : Database) (useIfNotExists : Bool) : List String :=
  db.schemas.flatMap fun schema =>
    schema.tables.flatMap fun table =>
      table.columns.filterMap fun col =>
        if col.isForeignKey then
          match col.foreignKeyRef with
          | some ref => some (fkStatement useIfNotExists schema.name table.name col ref)
          | none => none
        else none

/-- The table-level unique-constraint statements collected across every
schema and table. -/
def allUniqueConstraints (db : Database) (useIfNotExists : Bool) : List String :=
  db.schemas.flatMap fun schema =>
    schema.tables.flatMap fun table =>
      match table.uniqueConstraints with
      | some ucs => ucs.map fun uc =>
          let constraintName :=
            if uc.name == "" then
              "UQ_" ++ table.name ++ "_" ++ String.intercalate "_" uc.columns
            else uc.name
          let ucCols := String.intercalate ", " (uc.columns.map fun c => "[" ++ c ++ "]")
          if useIfNotExists then
            "IF NOT EXISTS (\n    SELECT 1 FROM sys.key_constraints\n    WHERE name = N'" ++
            constraintName ++ "'\n    AND parent_object_id = OBJECT_ID(N'[" ++
            schema.name ++ "].[" ++ table.name ++ "]')\n)\nBEGIN\n    ALTER TABLE [" ++
            schema.name ++ "].[" ++ table.name ++ "]\n        ADD CONSTRAINT [" ++
            constraintName ++ "] UNIQUE (" ++ ucCols ++ ");\nEND"
          else
            "ALTER TABLE [" ++ schema.name ++ "].[" ++ table.name ++
            "]\n    ADD CONSTRAINT [" ++ constraintName ++ "] UNIQUE (" ++
            ucCols ++ ");"
      | none => []

/-- The secondary-index statements collected across every schema and table,
with UX_/IX_ name auto-generation. -/
def allIndexes (db : Database) (useIfNotExists : Bool) : List String :=
  db.schemas.flatMap fun schema =>
    schema.tables.flatMap fun table =>
      match table.indexes with
      | some idxs => idxs.map fun idx =>
          let indexName :=
            if idx.name == "" then
              (if idx.isUnique then "UX" else "IX") ++ "_" ++ table.name ++ "_" ++
              String.intercalate "_" idx.columns
            else idx.name
          let idxCols := String.intercalate ", " (idx.columns.map fun c => "[" ++ c ++ "]")
          let uniqueKeyword := if idx.isUnique then "UNIQUE " else ""
          let clusterKeyword := if idx.isClustered then "CLUSTERED" else "NONCLUSTERED"
          if useIfNotExists then
            "IF NOT EXISTS (\n    SELECT 1 FROM sys.indexes\n    WHERE name = N'" ++
            indexName ++ "'\n    AND object_id = OBJECT_ID(N'[" ++ schema.name ++
            "].[" ++ table.name ++ "]')\n)\nBEGIN\n    CREATE " ++ uniqueKeyword ++
            clusterKeyword ++ " INDEX [" ++ indexName ++ "]\n        ON [" ++
            schema.name ++ "].[" ++ table.name ++ "] (" ++ idxCols ++ ");\nEND"
          else
            "CREATE " ++ uniqueKeyword ++ clusterKeyword ++ " INDEX [" ++ indexName ++
            "]\n    ON [" ++ schema.name ++ "].[" ++ table.name ++ "] (" ++
            idxCols ++ ");"
      | none => []

/-- Everything generateDatabaseSQL emits after the generation timestamp:
the rest of the header, the schema section, the per-table CREATE TABLE
blocks, then the unique-constraint, index and foreign-key sections. -/
def generateAfterTimestamp (db : Database) (useIfNotExists : Bool) : String :=
  let headerRest := "\n" ++
    (if useIfNotExists then "-- Idempotent DDL: Safe to run multiple times\n" else "") ++
    "\nUSE [" ++ db.name ++ "];\nGO\n\n"
  let nonDboSchemas := db.schemas.filter fun s => s.name != "dbo"
  let schemaSection :=
    if nonDboSchemas.length > 0 then
      "-- ====================================\n-- Create Schemas\n-- ====================================\n\n" ++
      String.join (nonDboSchemas.map fun schema =>
        (if useIfNotExists then
          "IF NOT EXISTS (SELECT * FROM sys.schemas WHERE name = N'" ++ schema.name ++
          "')\nBEGIN\n    EXEC('CREATE SCHEMA [" ++ schema.name ++ "]');\nEND\n"
        else
          "CREATE SCHEMA [" ++ schema.name ++ "];\n") ++ "GO\n\n")
    else ""
  let tableSection := String.join (db.schemas.map fun schema =>
    if schema.tables.length > 0 then
      "-- ====================================\n-- Schema: " ++ schema.name ++
      "\n-- ====================================\n\n" ++
      String.join (schema.tables.map fun table =>
        generateMSSQLTable schema.name table useIfNotExists ++ "\nGO\n\n")
    else "")
  let fks := allForeignKeys db useIfNotExists
  let ucs := allUniqueConstraints db useIfNotExists
  let idxs := allIndexes db useIfNotExists
  let ucSection :=
    if ucs.length > 0 then
      "-- ====================================\n-- Unique Constraints\n-- ====================================\n\n" ++
      String.join (ucs.map fun uc => uc ++ "\nGO\n\n")
    else ""
  let idxSection :=
    if idxs.length > 0 then
      "-- ====================================\n-- Indexes\n-- ====================================\n\n" ++
      String.join (idxs.map fun idx => idx ++ "\nGO\n\n")
    else ""
  let fkSection :=
    if fks.length > 0 then
      "-- ====================================\n-- Foreign Key Constraints\n-- ====================================\n\n" ++
      String.join (fks.map fun fk => fk ++ "\nGO\n\n")
    else ""
  headerRest ++ schemaSection ++ tableSection ++ ucSection ++ idxSection ++ fkSection

/-- generateDatabaseSQL from extension.ts, with the generation instant of
new Date().toISOString() passed in as the timestamp argument. -/
def generateDatabaseSQL (db : Database) (useIfNotExists : Bool)
    (timestamp : String) : String :=
  "-- Database: " ++ db.name ++ "\n" ++ "-- Generated by SQLGem at " ++
  timestamp ++ generateAfterTimestamp db useIfNotExists

/-- Fixture: a primary-key INT column named Id. -/
def fxIdCol : Column :=
  { name := "Id", type := "INT", isPrimaryKey := true, isNullable := false }

/-- Fixture: a plain INT column named CustomerId. -/
def fxCustomerIdCol : Column := { name := "CustomerId", type := "INT" }

/-- Fixture: a Customers table whose Id column is its primary key. -/
def fxCustomers : Table := { name := "Customers", columns := [fxIdCol] }

/-- Fixture: an Orders table with a single plain column. -/
def fxOrders : Table := { name := "Orders", columns := [fxCustomerIdCol] }

/-- Fixture: a one-schema database with the Customers and Orders tables. -/
def fxDb : Database :=
  { name := "Shop", schemas := [{ name := "dbo", tables := [fxCustomers, fxOrders] }] }

/-- Fixture endpoint dbo.Customers.Id. -/
def fxCustomersId : ColRef := ⟨"dbo", "Customers", "Id"⟩

/-- Fixture endpoint dbo.Orders.CustomerId. -/
def fxOrdersCustomerId : ColRef := ⟨"dbo", "Orders", "CustomerId"⟩

/-- Fixture: a plain INT column named A. -/
def fxPlainA : Column := { name := "A", type := "INT" }

/-- Fixture: a plain INT column named B. -/
def fxPlainB : Column := { name := "B", type := "INT" }

/-- Fixture: table T1 holding only the plain column A. -/
def fxT1 : Table := { name := "T1", columns := [fxPlainA] }

/-- Fixture: table T2 holding only the plain column B. -/
def fxT2 : Table := { name := "T2", columns := [fxPlainB] }

/-- Fixture: a one-schema database with the two plain tables. -/
def fxPlainDb : Database :=
  { name := "Plain", schemas := [{ name := "dbo", tables := [fxT1, fxT2] }] }

/-- Fixture endpoint dbo.T1.A. -/
def fxE1 : ColRef := ⟨"dbo", "T1", "A"⟩

/-- Fixture endpoint dbo.T2.B. -/
def fxE2 : ColRef := ⟨"dbo", "T2", "B"⟩

/-- Fixture: a table with a clustered primary key on Id. -/
def fxClusteredTable : Table :=
  { name := "T", columns := [fxIdCol],
    primaryKey := some { name := some "PK_T", columns := ["Id"], isClustered := some true } }

/-- Fixture: Orders.CustomerId as a live foreign key into Customers.Id. -/
def fxOrdersFkCol : Column :=
  { name := "CustomerId", type := "INT", isForeignKey := true,
    foreignKeyRef := some ⟨"dbo", "Customers", "Id"⟩,
    fkConstraintName := some "FK_Orders_CustomerId" }

/-- Fixture: an Orders table whose CustomerId column references Customers. -/
def fxOrdersFk : Table := { name := "Orders", columns := [fxOrdersFkCol] }

/-- Fixture: the Customers and referencing Orders tables in one schema. -/
def fxDbFk : Database :=
  { name := "Shop", schemas := [{ name := "dbo", tables := [fxCustomers, fxOrdersFk] }] }

/-- Fixture: a replacement Customers table that declares no primary key. -/
def fxNoPkTable : Table :=
  { name := "Customers", columns := [{ name := "Code", type := "INT" }] }

/-- Fixture: a replacement Customers table whose primary key was renamed to
CustomerNumber. -/
def fxRenamedPkTable : Table :=
  { name := "Customers",
    columns := [{ name := "CustomerNumber", type := "INT", isPrimaryKey := true,
                  isNullable := false }] }

/-- Fixture: a column that carries a dangling foreignKeyRef without being
flagged as a foreign key. -/
def fxDanglingCol : Column :=
  { name := "CustomerId", type := "INT",
    foreignKeyRef := some ⟨"dbo", "Customers", "Id"⟩ }

/-- Fixture: an Orders table holding only the unflagged reference column. -/
def fxOrdersDangling : Table := { name := "Orders", columns := [fxDanglingCol] }

/-- Fixture: database where Orders.CustomerId mentions Customers without
the isForeignKey flag. -/
def fxDbDangling : Database :=
  { name := "Shop",
    schemas := [{ name := "dbo", tables := [fxCustomers, fxOrdersDangling] }] }

/-- Fixture: a primary-key column that also references dbo.T2.B. -/
def fxCircIdCol : Column :=
  { name := "Id", type := "INT", isPrimaryKey := true, isForeignKey := true,
    foreignKeyRef := some ⟨"dbo", "T2", "B"⟩ }

/-- Fixture: table T1 whose primary key already references T2.B. -/
def fxCircT1 : Table := { name := "T1", columns := [fxCircIdCol] }

/-- Fixture: database where T1.Id already references the plain column T2.B. -/
def fxCircDb : Database :=
  { name := "Circ", schemas := [{ name := "dbo", tables := [fxCircT1, fxT2] }] }

/-- Fixture endpoint dbo.T1.Id. -/
def fxCircE1 : ColRef := ⟨"dbo", "T1", "Id"⟩

/-- Fixture: primary key of T1 that references T2.V while V itself
references a third table. -/
def fxCx6Id : Column :=
  { name := "Id", type := "INT", isPrimaryKey := true, isForeignKey := true,
    foreignKeyRef := some ⟨"dbo", "T2", "V"⟩ }

/-- Fixture: non-referenceable column V that already carries a foreign key
into T3.W. -/
def fxCx6V : Column :=
  { name := "V", type := "INT", isForeignKey := true,
    foreignKeyRef := some ⟨"dbo", "T3", "W"⟩ }

/-- Fixture: referenceable target column W of T3. -/
def fxCx6W : Column := { name := "W", type := "INT", isPrimaryKey := true }

/-- Fixture: database where the mirrored pair T1.Id -> T2.V meets a V that
already has a different foreign key. -/
def fxCx6Db : Database :=
  { name := "Cx6",
    schemas := [{ name := "dbo",
                  tables := [{ name := "T1", columns := [fxCx6Id] },
                             { name := "T2", columns := [fxCx6V] },
                             { name := "T3", columns := [fxCx6W] }] }] }

/-- Fixture: a not-yet-connected column that already carries a custom
constraint name. -/
def fxNamedFkCol : Column :=
  { name := "CustomerId", type := "INT", fkConstraintName := some "FK_custom" }

/-- Fixture: Orders table holding the custom-named column. -/
def fxOrdersNamed : Table := { name := "Orders", columns := [fxNamedFkCol] }

/-- Fixture: database used to show the constraint name being overwritten. -/
def fxDbNamed : Database :=
  { name := "Shop",
    schemas := [{ name := "dbo", tables := [fxCustomers, fxOrdersNamed] }] }

/-- Fixture: primary-key column A of the self-referencing table T. -/
def fxCx4A : Column := { name := "A", type := "INT", isPrimaryKey := true }

/-- Fixture: primary-key column B of T that also references T.A. -/
def fxCx4B : Column :=
  { name := "B", type := "INT", isPrimaryKey := true, isForeignKey := true,
    foreignKeyRef := some ⟨"dbo", "T", "A"⟩ }

/-- Fixture: table T with two primary-key columns, one referencing the
other. -/
def fxCx4T : Table := { name := "T", columns := [fxCx4A, fxCx4B] }

/-- Fixture: external column referencing the primary-key column T.B. -/
def fxCx4XB : Column :=
  { name := "XB", type := "INT", isForeignKey := true,
    foreignKeyRef := some ⟨"dbo", "T", "B"⟩ }

/-- Fixture: external column mentioning T.A without the isForeignKey
flag. -/
def fxCx4YA : Column :=
  { name := "YA", type := "INT", foreignKeyRef := some ⟨"dbo", "T", "A"⟩ }

/-- Fixture: database combining the self-referencing table T with two
external referencing tables. -/
def fxCx4Db : Database :=
  { name := "Cx4",
    schemas := [{ name := "dbo",
                  tables := [fxCx4T,
                             { name := "X", columns := [fxCx4XB] },
                             { name := "Y", columns := [fxCx4YA] }] }] }

/-- Fixture: replacement for T whose only primary-key column is the fresh
column N. -/
def fxCx4NewT : Table :=
  { name := "T", columns := [{ name := "N", type := "INT", isPrimaryKey := true }] }

/-- Removal of the first table of a given name, as the claim wording
describes the delete: drop that table, keep everything else in order. -/
def removeFirstTableNamed (n : String) : List Table → List Table
  | [] => []
  | t :: ts => if t.name == n then ts else t :: removeFirstTableNamed n ts

/-- Removal of the named table from the first schema of the given name. -/
def removeTableInFirstSchemaNamed (s n : String) : List Schema → List Schema
  | [] => []
  | sc :: scs =>
    if sc.name == s then
      { sc with tables := removeFirstTableNamed n sc.tables } :: scs
    else sc :: removeTableInFirstSchemaNamed s n scs

/-- DeleteTable as the amended claim reads: first clear isForeignKey,
foreignKeyRef and fkConstraintName on every column flagged as a foreign
key whose reference targets the deleted table, then remove the table from
its schema, touching nothing else. -/
def deleteTableSpec (db : Database) (schemaName tableName : String) : Database :=
  let cleared : Database :=
    { db with
        schemas := db.schemas.map fun s =>
          { s with
              tables := s.tables.map fun t =>
                { t with
                    columns := t.columns.map
                      (clearIfRefTargets schemaName tableName) } } }
  { cleared with
      schemas := removeTableInFirstSchemaNamed schemaName tableName cleared.schemas }

/-- connectColumnUpdate never renames a column. -/
theorem connectColumnUpdate_name (refSide fkSide : ColRef) (c : Column) :
    (connectColumnUpdate refSide fkSide c).name = c.name := by
  unfold connectColumnUpdate; split <;> rfl

/-- A successful connectApply returns exactly the connectSuccessDb
rebuild of the database with no error. -/
theorem connectApply_eq_of_ok (db : Database) (refSide : ColRef)
    (refColumn : Column) (fkSide : ColRef) (fkTable : Table) (fkColumn : Column)
    (hok : (connectApply db refSide refColumn fkSide fkTable fkColumn).error = none) :
    connectApply db refSide refColumn fkSide fkTable fkColumn =
      ⟨connectSuccessDb db refSide fkSide fkTable, none⟩ := by
  by_cases h1 : fkColumn.isForeignKey = true
  · exfalso
    rcases hr : fkColumn.foreignKeyRef with _ | r
    · simp [connectApply, h1, hr] at hok
    · by_cases h2 : (r.schema == refSide.schema && r.table == refSide.table &&
          r.column == refSide.column) = true <;>
        simp [connectApply, h1, hr, h2] at hok
  · by_cases h3 : (refColumn.isForeignKey &&
        (match refColumn.foreignKeyRef with
         | some r => r.schema == fkSide.schema && r.table == fkSide.table &&
             r.column == fkSide.column
         | none => false)) = true
    · exfalso; simp [connectApply, h1, h3] at hok
    · by_cases h4 : (normalizeType fkColumn.type != normalizeType refColumn.type) = true
      · exfalso; simp [connectApply, h1, h3, h4] at hok
      · simp [connectApply, h1, h3, h4]

/-- Resolving the FK endpoint in the database produced by a successful
connect yields the FK column updated with the new foreign-key fields. -/
theorem lookupColumn_connectSuccessDb (db : Database) (refSide fkSide : ColRef)
    (fkTable : Table) (fkColumn : Column) (sc : Schema)
    (hS : db.schemas.find? (fun s => s.name == fkSide.schema) = some sc)
    (hT : sc.tables.find? (fun t => t.name == fkSide.table) = some fkTable)
    (hC : fkTable.columns.find? (fun c => c.name == fkSide.column) = some fkColumn) :
    lookupColumn (connectSuccessDb db refSide fkSide fkTable) fkSide =
      some { fkColumn with
               isForeignKey := true
               foreignKeyRef := some ⟨refSide.schema, refSide.table, refSide.column⟩
               fkConstraintName := some ("FK_" ++ fkSide.table ++ "_" ++ fkSide.column) } := by
  have hscName : (sc.name == fkSide.schema) = true := by
    simpa using List.find?_some hS
  have htName : (fkTable.name == fkSide.table) = true := by
    simpa using List.find?_some hT
  have hcName : (fkColumn.name == fkSide.column) = true := by
    simpa using List.find?_some hC
  unfold lookupColumn connectSuccessDb
  rw [List.find?_map]
  have hcompS : ((fun s : Schema => s.name == fkSide.schema) ∘ fun schema =>
      if schema.name == fkSide.schema then
        { schema with
            tables := schema.tables.map fun t =>
              if t.name == fkSide.table then
                { fkTable with
                    columns := fkTable.columns.map (connectColumnUpdate refSide fkSide) }
              else t }
      else schema) = fun s : Schema => s.name == fkSide.schema := by
    funext s
    by_cases h : (s.name == fkSide.schema) = true <;> simp [Function.comp, h]
  rw [hcompS, hS]
  simp only [Option.map_some', Option.some_bind, hscName, if_true]
  rw [List.find?_map]
  have hcompT : ((fun t : Table => t.name == fkSide.table) ∘ fun t =>
      if t.name == fkSide.table then
        { fkTable with
            columns := fkTable.columns.map (connectColumnUpdate refSide fkSide) }
      else t) = fun t : Table => t.name == fkSide.table := by
    funext t
    by_cases h : (t.name == fkSide.table) = true <;> simp [Function.comp, h, htName]
  rw [hcompT, hT]
  simp only [Option.map_some', Option.some_bind, htName, if_true]
  rw [List.find?_map]
  have hcompC : ((fun c : Column => c.name == fkSide.column) ∘
      connectColumnUpdate refSide fkSide) = fun c : Column => c.name == fkSide.column := by
    funext c
    simp [Function.comp, connectColumnUpdate_name]
  rw [hcompC, hC]
  simp [connectColumnUpdate, hcName]

/-- Claim C1: when exactly one endpoint of a connect attempt is
referenceable, connecting A to B and connecting B to A produce the same
result, and on success the non-referenceable column becomes the FK column
with a foreignKeyRef pointing at the referenceable endpoint. -/
theorem connect_direction_invariant
    (db : Database) (A B : ColRef) (sc1 sc2 : Schema) (t1 t2 : Table)
    (c1 c2 : Column)
    (hS1 : db.schemas.find? (fun s => s.name == A.schema) = some sc1)
    (hS2 : db.schemas.find? (fun s => s.name == B.schema) = some sc2)
    (hT1 : sc1.tables.find? (fun t => t.name == A.table) = some t1)
    (hT2 : sc2.tables.find? (fun t => t.name == B.table) = some t2)
    (hC1 : t1.columns.find? (fun c => c.name == A.column) = some c1)
    (hC2 : t2.columns.find? (fun c => c.name == B.column) = some c2)
    (hone : isColumnReferenceable c1 t1 ≠ isColumnReferenceable c2 t2) :
    connectColumns db A B = connectColumns db B A ∧
    ((connectColumns db A B).error = none →
      ∃ col : Column,
        lookupColumn (connectColumns db A B).db
            (if isColumnReferenceable c1 t1 then B else A) = some col ∧
        col.isForeignKey = true ∧
        col.foreignKeyRef =
          some (if isColumnReferenceable c1 t1 then A else B)) := by
  cases h1 : isColumnReferenceable c1 t1 <;> cases h2 : isColumnReferenceable c2 t2
  · exact absurd (h1.trans h2.symm) hone
  · have hAB : connectColumns db A B = connectApply db B c2 A t1 c1 := by
      simp [connectColumns, hS1, hS2, hT1, hT2, hC1, hC2, h1, h2]
    have hBA : connectColumns db B A = connectApply db B c2 A t1 c1 := by
      simp [connectColumns, hS1, hS2, hT1, hT2, hC1, hC2, h1, h2]
    refine ⟨hAB.trans hBA.symm, fun hok => ?_⟩
    rw [hAB] at hok ⊢
    rw [connectApply_eq_of_ok db B c2 A t1 c1 hok]
    refine ⟨_, lookupColumn_connectSuccessDb db B A t1 c1 sc1 hS1 hT1 hC1, rfl, ?_⟩
    simp
  · have hAB : connectColumns db A B = connectApply db A c1 B t2 c2 := by
      simp [connectColumns, hS1, hS2, hT1, hT2, hC1, hC2, h1, h2]
    have hBA : connectColumns db B A = connectApply db A c1 B t2 c2 := by
      simp [connectColumns, hS1, hS2, hT1, hT2, hC1, hC2, h1, h2]
    refine ⟨hAB.trans hBA.symm, fun hok => ?_⟩
    rw [hAB] at hok ⊢
    rw [connectApply_eq_of_ok db A c1 B t2 c2 hok]
    refine ⟨_, lookupColumn_connectSuccessDb db A B t2 c2 sc2 hS2 hT2 hC2, rfl, ?_⟩
    simp
  · exact absurd (h1.trans h2.symm) hone

/-- Witness for claim C1 at a concrete database: connecting
Customers.Id to Orders.CustomerId in either order gives the same result,
and Orders.CustomerId ends up as the FK column referencing Customers.Id. -/
theorem connect_direction_invariant_witness :
    connectColumns fxDb fxCustomersId fxOrdersCustomerId =
      connectColumns fxDb fxOrdersCustomerId fxCustomersId ∧
    ((connectColumns fxDb fxCustomersId fxOrdersCustomerId).error = none →
      ∃ col : Column,
        lookupColumn (connectColumns fxDb fxCustomersId fxOrdersCustomerId).db
            (if isColumnReferenceable fxIdCol fxCustomers then fxOrdersCustomerId
             else fxCustomersId) = some col ∧
        col.isForeignKey = true ∧
        col.foreignKeyRef =
          some (if isColumnReferenceable fxIdCol fxCustomers then fxCustomersId
                else fxOrdersCustomerId)) :=
  connect_direction_invariant fxDb fxCustomersId fxOrdersCustomerId
    _ _ _ _ _ _ rfl rfl rfl rfl rfl rfl (by decide)

/-- Claim C2: when it is not the case that exactly one endpoint of a
connect attempt is referenceable, connectColumns leaves the database
byte-for-byte unchanged and reports the neither-referenceable error when
neither side is referenceable and the ambiguous-relationship error when
both are. -/
theorem connect_rejects_without_unique_side
    (db : Database) (A B : ColRef) (sc1 sc2 : Schema) (t1 t2 : Table)
    (c1 c2 : Column)
    (hS1 : db.schemas.find? (fun s => s.name == A.schema) = some sc1)
    (hS2 : db.schemas.find? (fun s => s.name == B.schema) = some sc2)
    (hT1 : sc1.tables.find? (fun t => t.name == A.table) = some t1)
    (hT2 : sc2.tables.find? (fun t => t.name == B.table) = some t2)
    (hC1 : t1.columns.find? (fun c => c.name == A.column) = some c1)
    (hC2 : t2.columns.find? (fun c => c.name == B.column) = some c2)
    (hsame : isColumnReferenceable c1 t1 = isColumnReferenceable c2 t2) :
    (connectColumns db A B).db = db ∧
    (isColumnReferenceable c1 t1 = false →
      (connectColumns db A B).error = some ConnectError.neitherUnique) ∧
    (isColumnReferenceable c1 t1 = true →
      (connectColumns db A B).error = some ConnectError.ambiguous) := by
  cases h1 : isColumnReferenceable c1 t1 <;>
    simp [connectColumns, hS1, hS2, hT1, hT2, hC1, hC2, h1, ← hsame]

/-- Witness for claim C2 at a concrete database: connecting the two plain
columns T1.A and T2.B leaves the database unchanged with the
neither-referenceable error. -/
theorem connect_rejects_without_unique_side_witness :
    (connectColumns fxPlainDb fxE1 fxE2).db = fxPlainDb ∧
    (isColumnReferenceable fxPlainA fxT1 = false →
      (connectColumns fxPlainDb fxE1 fxE2).error = some ConnectError.neitherUnique) ∧
    (isColumnReferenceable fxPlainA fxT1 = true →
      (connectColumns fxPlainDb fxE1 fxE2).error = some ConnectError.ambiguous) :=
  connect_rejects_without_unique_side fxPlainDb fxE1 fxE2
    _ _ _ _ _ _ rfl rfl rfl rfl rfl rfl (by decide)

/-- Adding one index changes the clustered count by exactly one when the
new index is clustered and not at all otherwise. -/
theorem getTotalClusteredIndexes_append (t : Table) (nm : String)
    (cols : List String) (cl un : Bool) :
    getTotalClusteredIndexes
        { t with
            indexes := some ((t.indexes.getD []) ++
              [{ name := nm, columns := cols, isClustered := cl, isUnique := un }]) } =
      getTotalClusteredIndexes t + (if cl then 1 else 0) := by
  unfold getTotalClusteredIndexes
  cases t.primaryKey <;> cases t.indexes <;> cases cl <;>
    (simp [List.filter_append]; try omega)

/-- Claim C5: addIndex rejects a clustered index, leaving the table
unchanged, whenever the table already has a clustered structure, and the
at-most-one-clustered-structure invariant is preserved by every addIndex
call. -/
theorem addIndex_clustered_guard (t : Table) (nm : String) (cols : List String)
    (cl un : Bool) :
    (cl = true → 1 ≤ getTotalClusteredIndexes t →
      (addIndex t nm cols cl un).1 = t ∧
      (addIndex t nm cols cl un).2.isSome = true) ∧
    (getTotalClusteredIndexes t ≤ 1 →
      getTotalClusteredIndexes (addIndex t nm cols cl un).1 ≤ 1) := by
  constructor
  · intro hcl hge
    by_cases h0 : (nm == "" || cols.length == 0) = true
    · simp [addIndex, h0]
    · have hcan : canAddClusteredIndex t = false := by
        simp [canAddClusteredIndex]; omega
      simp [addIndex, h0, hcl, hcan]
  · intro hle
    by_cases h0 : (nm == "" || cols.length == 0) = true
    · simpa [addIndex, h0] using hle
    · by_cases hcl : cl = true
      · by_cases hcan : canAddClusteredIndex t = true
        · have h0count : getTotalClusteredIndexes t = 0 := by
            simp [canAddClusteredIndex] at hcan; omega
          simp [addIndex, h0, hcl, hcan, getTotalClusteredIndexes_append, h0count]
        · simpa [addIndex, h0, hcl, hcan] using hle
      · have hcl' : cl = false := by simpa using hcl
        by_cases hcan : canAddClusteredIndex t = true <;>
          simp [addIndex, h0, hcl', hcan, getTotalClusteredIndexes_append, hle]

/-- Witness for claim C5: a table with a clustered primary key rejects a
clustered index with its state intact, and the clustered count stays at
most one. -/
theorem addIndex_clustered_guard_witness :
    ((addIndex fxClusteredTable "IX_T_Id" ["Id"] true false).1 = fxClusteredTable ∧
      (addIndex fxClusteredTable "IX_T_Id" ["Id"] true false).2.isSome = true) ∧
    getTotalClusteredIndexes (addIndex fxClusteredTable "IX_T_Id" ["Id"] true false).1 ≤ 1 :=
  ⟨(addIndex_clustered_guard fxClusteredTable "IX_T_Id" ["Id"] true false).1
      rfl (by decide),
   (addIndex_clustered_guard fxClusteredTable "IX_T_Id" ["Id"] true false).2
      (by decide)⟩

/-- Claim C7: generation is a pure function of the database and the
idempotent flag apart from the timestamp, which occurs exactly once
between a prefix and a suffix that do not depend on it; two runs on the
same database therefore agree everywhere outside the timestamp line. -/
theorem generate_pure_modulo_timestamp (db : Database) (useIfNotExists : Bool) :
    ∃ pre post : String, ∀ timestamp : String,
      generateDatabaseSQL db useIfNotExists timestamp = pre ++ timestamp ++ post :=
  ⟨"-- Database: " ++ db.name ++ "\n" ++ "-- Generated by SQLGem at ",
   generateAfterTimestamp db useIfNotExists, fun _ => rfl⟩

/-- Claim C8: the generator renders a length suffix only for VARCHAR and
NVARCHAR and a precision suffix only for DECIMAL; CHAR and NCHAR columns
carrying a length and NUMERIC columns carrying a precision are emitted as
bare type tokens. -/
theorem char_numeric_sizes_dropped :
    columnTypeStr { name := "Code", type := "CHAR", length := some 10 } = "CHAR" ∧
    columnTypeStr { name := "Tag", type := "NCHAR", length := some 10 } = "NCHAR" ∧
    columnTypeStr { name := "Amount", type := "NUMERIC", precision := some 18,
                    scale := some 2 } = "NUMERIC" ∧
    columnDef { name := "Code", type := "CHAR", length := some 10 } =
      "    [Code] CHAR" ∧
    columnTypeStr { name := "Name", type := "VARCHAR", length := some 255 } =
      "VARCHAR(255)" ∧
    columnTypeStr { name := "Price", type := "DECIMAL", precision := some 10,
                    scale := some 2 } = "DECIMAL(10,2)" :=
  ⟨rfl, rfl, rfl, rfl, rfl, rfl⟩

/-- Claim C10: replacing a table with one that declares no primary key
performs no foreign-key repointing anywhere; the result is exactly the
input database with the one table substituted. -/
theorem updateTable_no_pk_no_repoint
    (db : Database) (schemaName oldTableName : String) (newTable : Table)
    (si ti : Nat)
    (hsi : db.schemas.findIdx? (fun s => s.name == schemaName) = some si)
    (hti : (db.schemas.getD si defaultSchema).tables.findIdx?
      (fun t => t.name == oldTableName) = some ti)
    (hnopk : (newTable.columns.any fun c => c.isPrimaryKey) = false) :
    handleUpdateTable db schemaName oldTableName newTable =
      ({ db with
          schemas := db.schemas.set si
            { db.schemas.getD si defaultSchema with
                tables := (db.schemas.getD si defaultSchema).tables.set ti newTable } },
       none) := by
  unfold handleUpdateTable
  simp only [hsi, hti]
  have hfold : ∀ (l : List Nat) (acc : Database),
      l.foldl (updateTableStep schemaName oldTableName newTable si ti) acc = acc := by
    intro l
    induction l with
    | nil => intro acc; rfl
    | cons a l ih =>
      intro acc
      rw [List.foldl_cons]
      have hstep : updateTableStep schemaName oldTableName newTable si ti acc a = acc := by
        simp [updateTableStep, hnopk]
      rw [hstep]
      exact ih acc
  simp only [hfold]

/-- Witness for claim C10: replacing Customers by a key-less table leaves
the referencing Orders.CustomerId (and everything else) untouched except
for the substituted table itself. -/
theorem updateTable_no_pk_no_repoint_witness :
    handleUpdateTable fxDbFk "dbo" "Customers" fxNoPkTable =
      ({ fxDbFk with
          schemas := fxDbFk.schemas.set 0
            { fxDbFk.schemas.getD 0 defaultSchema with
                tables := (fxDbFk.schemas.getD 0 defaultSchema).tables.set 0 fxNoPkTable } },
       none) :=
  updateTable_no_pk_no_repoint fxDbFk "dbo" "Customers" fxNoPkTable 0 0 rfl rfl rfl

/-- Claim C6 (amended): when the referenceable column already references
the FK-side column back, connectColumns rejects without mutating the
database; the error is the circular-foreign-key error whenever the FK-side
column does not itself already carry a foreign key (otherwise the
duplicate/existing-key check on the FK column fires first). -/
theorem connect_rejects_mirrored
    (db : Database) (A B : ColRef) (sc1 sc2 : Schema) (t1 t2 : Table)
    (c1 c2 : Column)
    (hS1 : db.schemas.find? (fun s => s.name == A.schema) = some sc1)
    (hS2 : db.schemas.find? (fun s => s.name == B.schema) = some sc2)
    (hT1 : sc1.tables.find? (fun t => t.name == A.table) = some t1)
    (hT2 : sc2.tables.find? (fun t => t.name == B.table) = some t2)
    (hC1 : t1.columns.find? (fun c => c.name == A.column) = some c1)
    (hC2 : t2.columns.find? (fun c => c.name == B.column) = some c2)
    (h1 : isColumnReferenceable c1 t1 = true)
    (h2 : isColumnReferenceable c2 t2 = false)
    (hfk : c1.isForeignKey = true)
    (hmirror : c1.foreignKeyRef = some B) :
    (connectColumns db A B).db = db ∧
    (connectColumns db A B).error.isSome = true ∧
    (c2.isForeignKey = false →
      (connectColumns db A B).error = some ConnectError.circularForeignKey) := by
  have hred : connectColumns db A B = connectApply db A c1 B t2 c2 := by
    simp [connectColumns, hS1, hS2, hT1, hT2, hC1, hC2, h1, h2]
  rw [hred]
  by_cases hfk2 : c2.isForeignKey = true
  · rcases hr : c2.foreignKeyRef with _ | r
    · simp [connectApply, hfk2, hr]
    · simp [connectApply, hfk2, hr]
      constructor <;> split <;> rfl
  · have hf2 : c2.isForeignKey = false := by simpa using hfk2
    simp [connectApply, hf2, hfk, hmirror]

/-- Witness for the amended claim C6: T1.Id, a primary key that already
references the plain column T2.B, cannot be connected with T2.B again; the
attempt is rejected with the circular-foreign-key error and the database
is unchanged. -/
theorem connect_rejects_mirrored_witness :
    (connectColumns fxCircDb fxCircE1 fxE2).db = fxCircDb ∧
    (connectColumns fxCircDb fxCircE1 fxE2).error.isSome = true ∧
    (fxPlainB.isForeignKey = false →
      (connectColumns fxCircDb fxCircE1 fxE2).error =
        some ConnectError.circularForeignKey) :=
  connect_rejects_mirrored fxCircDb fxCircE1 fxE2 _ _ _ _ _ _
    rfl rfl rfl rfl rfl rfl (by decide) (by decide) rfl rfl

/-- Counterexample to claim C6 as stated: T1.Id (referenceable) already
references T2.V back, yet the rejection is the existing-foreign-key error,
not the circular one, because T2.V itself carries a foreign key to a third
table and that check runs first. -/
theorem connect_mirrored_counterexample :
    fxCx6Id.isForeignKey = true ∧
    fxCx6Id.foreignKeyRef = some ⟨"dbo", "T2", "V"⟩ ∧
    isColumnReferenceable fxCx6Id { name := "T1", columns := [fxCx6Id] } = true ∧
    isColumnReferenceable fxCx6V { name := "T2", columns := [fxCx6V] } = false ∧
    (connectColumns fxCx6Db ⟨"dbo", "T1", "Id"⟩ ⟨"dbo", "T2", "V"⟩).error =
      some ConnectError.existingForeignKey := by
  refine ⟨rfl, rfl, rfl, rfl, ?_⟩
  rfl

/-- Claim C9 (amended): a successful connect sets the FK column's
isForeignKey flag, its foreignKeyRef to the referenceable endpoint, and
always overwrites fkConstraintName with the synthesized
FK_<table>_<column> name. -/
theorem connect_success_sets_fk_fields
    (db : Database) (A B : ColRef) (sc1 sc2 : Schema) (t1 t2 : Table)
    (c1 c2 : Column)
    (hS1 : db.schemas.find? (fun s => s.name == A.schema) = some sc1)
    (hS2 : db.schemas.find? (fun s => s.name == B.schema) = some sc2)
    (hT1 : sc1.tables.find? (fun t => t.name == A.table) = some t1)
    (hT2 : sc2.tables.find? (fun t => t.name == B.table) = some t2)
    (hC1 : t1.columns.find? (fun c => c.name == A.column) = some c1)
    (hC2 : t2.columns.find? (fun c => c.name == B.column) = some c2)
    (h1 : isColumnReferenceable c1 t1 = true)
    (h2 : isColumnReferenceable c2 t2 = false)
    (hok : (connectColumns db A B).error = none) :
    lookupColumn (connectColumns db A B).db B =
      some { c2 with
               isForeignKey := true
               foreignKeyRef := some ⟨A.schema, A.table, A.column⟩
               fkConstraintName := some ("FK_" ++ B.table ++ "_" ++ B.column) } := by
  have hred : connectColumns db A B = connectApply db A c1 B t2 c2 := by
    simp [connectColumns, hS1, hS2, hT1, hT2, hC1, hC2, h1, h2]
  rw [hred] at hok ⊢
  rw [connectApply_eq_of_ok db A c1 B t2 c2 hok]
  exact lookupColumn_connectSuccessDb db A B t2 c2 sc2 hS2 hT2 hC2

/-- Witness for the amended claim C9: connecting Customers.Id to
Orders.CustomerId succeeds and stamps the synthesized constraint name on
the updated FK column. -/
theorem connect_success_sets_fk_fields_witness :
    lookupColumn (connectColumns fxDb fxCustomersId fxOrdersCustomerId).db
        fxOrdersCustomerId =
      some { fxCustomerIdCol with
               isForeignKey := true
               foreignKeyRef := some ⟨fxCustomersId.schema, fxCustomersId.table,
                 fxCustomersId.column⟩
               fkConstraintName := some ("FK_" ++ fxOrdersCustomerId.table ++ "_" ++
                 fxOrdersCustomerId.column) } :=
  connect_success_sets_fk_fields fxDb fxCustomersId fxOrdersCustomerId _ _ _ _ _ _
    rfl rfl rfl rfl rfl rfl (by decide) (by decide) rfl

/-- Counterexample to claim C9 as stated: Orders.CustomerId already holds
the constraint name FK_custom before the connect; the successful connect
replaces it with the synthesized FK_Orders_CustomerId instead of
preserving it. -/
theorem connect_overwrites_existing_name :
    fxNamedFkCol.fkConstraintName = some "FK_custom" ∧
    (connectColumns fxDbNamed fxOrdersCustomerId fxCustomersId).error = none ∧
    Option.map (fun c => c.fkConstraintName)
        (lookupColumn (connectColumns fxDbNamed fxOrdersCustomerId fxCustomersId).db
          fxOrdersCustomerId) =
      some (some "FK_Orders_CustomerId") :=
  ⟨rfl, rfl, rfl⟩

/-- Helper: getD through a map when the index is in range. -/
theorem getD_map_lt {α β : Type} (f : α → β) (l : List α) (i : Nat) (d : α)
    (dd : β) (h : i < l.length) :
    (l.map f).getD i dd = f (l.getD i d) := by
  induction l generalizing i with
  | nil => simp at h
  | cons a l ih =>
    cases i with
    | zero => rfl
    | succ i =>
      simp only [List.map_cons, List.getD_cons_succ]
      exact ih i (by simpa using h)

/-- Helper: erasing at the index located by findIdx? is removal of the
first table of that name. -/
theorem eraseIdx_findIdx_removeFirst (l : List Table) (n : String) (ti : Nat)
    (h : l.findIdx? (fun t => t.name == n) = some ti) :
    l.eraseIdx ti = removeFirstTableNamed n l := by
  induction l generalizing ti with
  | nil => simp at h
  | cons t ts ih =>
    rw [List.findIdx?_cons, List.findIdx?_succ] at h
    by_cases hp : (t.name == n) = true
    · simp only [hp, if_true] at h
      cases h
      simp [removeFirstTableNamed, hp]
    · simp only [hp, Bool.false_eq_true, if_false] at h
      rcases Option.map_eq_some'.mp h with ⟨ti2, h1, h2⟩
      subst h2
      simp [removeFirstTableNamed, hp, ih ti2 h1]

/-- Helper: setting the found schema to its erased-table version is
removal of the named table from the first schema of that name. -/
theorem set_eraseIdx_removeTable (l : List Schema) (s n : String) (si ti : Nat)
    (hsi : l.findIdx? (fun sc => sc.name == s) = some si)
    (hti : (l.getD si defaultSchema).tables.findIdx?
      (fun t => t.name == n) = some ti) :
    l.set si
      { l.getD si defaultSchema with
          tables := (l.getD si defaultSchema).tables.eraseIdx ti } =
      removeTableInFirstSchemaNamed s n l := by
  induction l generalizing si with
  | nil => simp at hsi
  | cons sc scs ih =>
    rw [List.findIdx?_cons, List.findIdx?_succ] at hsi
    by_cases hp : (sc.name == s) = true
    · simp only [hp, if_true] at hsi
      cases hsi
      simp only [List.getD_cons_zero] at hti
      simp [removeTableInFirstSchemaNamed, hp,
        eraseIdx_findIdx_removeFirst sc.tables n ti hti]
    · simp only [hp, Bool.false_eq_true, if_false] at hsi
      rcases Option.map_eq_some'.mp hsi with ⟨si2, h1, h2⟩
      subst h2
      simp only [List.getD_cons_succ] at hti
      simp only [List.getD_cons_succ, List.set_cons_succ]
      simp only [removeTableInFirstSchemaNamed, hp, Bool.false_eq_true, if_false]
      rw [ih si2 h1 hti]

/-- Helper: removal of one table keeps a sublist of the tables. -/
theorem mem_removeFirstTableNamed (n : String) (l : List Table) (t : Table)
    (h : t ∈ removeFirstTableNamed n l) : t ∈ l := by
  induction l with
  | nil => simp [removeFirstTableNamed] at h
  | cons a l ih =>
    by_cases hp : (a.name == n) = true
    · simp only [removeFirstTableNamed, hp, if_true] at h
      exact List.mem_cons_of_mem a h
    · simp only [removeFirstTableNamed, hp, Bool.false_eq_true, if_false,
        List.mem_cons] at h
      rcases h with h | h
      · exact h ▸ List.mem_cons_self a l
      · exact List.mem_cons_of_mem a (ih h)

/-- Helper: every table present after the removal was a table of some
schema before it. -/
theorem mem_removeTableInFirstSchemaNamed (s n : String) (l : List Schema)
    (sc : Schema) (hsc : sc ∈ removeTableInFirstSchemaNamed s n l)
    (t : Table) (ht : t ∈ sc.tables) :
    ∃ sc0 ∈ l, t ∈ sc0.tables := by
  induction l with
  | nil => simp [removeTableInFirstSchemaNamed] at hsc
  | cons a l ih =>
    by_cases hp : (a.name == s) = true
    · simp only [removeTableInFirstSchemaNamed, hp, if_true, List.mem_cons] at hsc
      rcases hsc with h | h
      · refine ⟨a, List.mem_cons_self a l, ?_⟩
        apply mem_removeFirstTableNamed n a.tables
        have : sc.tables = removeFirstTableNamed n a.tables := by rw [h]
        exact this ▸ ht
      · exact ⟨sc, List.mem_cons_of_mem a h, ht⟩
    · simp only [removeTableInFirstSchemaNamed, hp, Bool.false_eq_true, if_false,
        List.mem_cons] at hsc
      rcases hsc with h | h
      · exact ⟨a, List.mem_cons_self a l, h ▸ ht⟩
      · rcases ih h with ⟨sc0, h0, h0t⟩
        exact ⟨sc0, List.mem_cons_of_mem a h0, h0t⟩

/-- Helper: after the cleanup pass, a column that is still flagged as a
foreign key never references the deleted table. -/
theorem clearIfRefTargets_no_target (s n : String) (c0 : Column)
    (hfk : (clearIfRefTargets s n c0).isForeignKey = true)
    (r : ColRef) (hr : (clearIfRefTargets s n c0).foreignKeyRef = some r) :
    ¬(r.schema = s ∧ r.table = n) := by
  by_cases h : (c0.isForeignKey &&
      (match c0.foreignKeyRef with
       | some rr => rr.schema == s && rr.table == n
       | none => false)) = true
  · simp [clearIfRefTargets, h] at hfk
  · simp only [clearIfRefTargets, h, Bool.false_eq_true, if_false] at hfk hr
    rintro ⟨he1, he2⟩
    apply h
    simp [hfk, hr, he1, he2]

/-- Claim C3 (amended): DeleteTable clears isForeignKey, foreignKeyRef and
fkConstraintName on every column flagged as a foreign key whose reference
targets the deleted table, touches nothing else, then removes the table
from its schema; afterwards no column still flagged as a foreign key
references the deleted table. -/
theorem deleteTable_cascades
    (db : Database) (schemaName tableName : String) (si ti : Nat)
    (hsi : db.schemas.findIdx? (fun s => s.name == schemaName) = some si)
    (hti : (db.schemas.getD si defaultSchema).tables.findIdx?
      (fun t => t.name == tableName) = some ti) :
    handleDeleteTable db schemaName tableName =
      (deleteTableSpec db schemaName tableName, none) ∧
    (∀ sc ∈ (handleDeleteTable db schemaName tableName).1.schemas,
      ∀ t ∈ sc.tables, ∀ c ∈ t.columns,
        c.isForeignKey = true → ∀ r, c.foreignKeyRef = some r →
          ¬(r.schema = schemaName ∧ r.table = tableName)) := by
  have hbound : si < db.schemas.length :=
    (List.findIdx?_eq_some_iff_findIdx_eq.mp hsi).1
  have hmain : handleDeleteTable db schemaName tableName =
      (deleteTableSpec db schemaName tableName, none) := by
    unfold handleDeleteTable deleteTableSpec
    simp only [hsi, hti]
    have hsi2 : (db.schemas.map fun s =>
        { s with
            tables := s.tables.map fun t =>
              { t with
                  columns := t.columns.map
                    (clearIfRefTargets schemaName tableName) } } : List Schema).findIdx?
        (fun sc => sc.name == schemaName) = some si := by
      rw [List.findIdx?_map]
      exact hsi
    have hgd : ((db.schemas.map fun s =>
        { s with
            tables := s.tables.map fun t =>
              { t with
                  columns := t.columns.map
                    (clearIfRefTargets schemaName tableName) } } : List Schema).getD si
          defaultSchema) =
        { db.schemas.getD si defaultSchema with
            tables := (db.schemas.getD si defaultSchema).tables.map fun t =>
              { t with
                  columns := t.columns.map
                    (clearIfRefTargets schemaName tableName) } } :=
      getD_map_lt _ db.schemas si defaultSchema defaultSchema hbound
    have hti2 : ((db.schemas.map fun s =>
        { s with
            tables := s.tables.map fun t =>
              { t with
                  columns := t.columns.map
                    (clearIfRefTargets schemaName tableName) } } : List Schema).getD si
          defaultSchema).tables.findIdx? (fun t => t.name == tableName) = some ti := by
      rw [hgd]
      simp only [List.findIdx?_map]
      exact hti
    rw [set_eraseIdx_removeTable _ schemaName tableName si ti hsi2 hti2]
  refine ⟨hmain, ?_⟩
  rw [hmain]
  intro sc hsc t ht c hc hcfk r hr
  rcases mem_removeTableInFirstSchemaNamed schemaName tableName _ sc hsc t ht with
    ⟨sc0, hsc0, ht0⟩
  rcases List.mem_map.mp hsc0 with ⟨sc1, _, hsc1⟩
  have ht1 : t ∈ (sc1.tables.map fun t0 =>
      { t0 with
          columns := t0.columns.map (clearIfRefTargets schemaName tableName) }) := by
    rw [← hsc1] at ht0
    exact ht0
  rcases List.mem_map.mp ht1 with ⟨t2, _, ht2⟩
  have hc2 : c ∈ t2.columns.map (clearIfRefTargets schemaName tableName) := by
    rw [← ht2] at hc
    exact hc
  rcases List.mem_map.mp hc2 with ⟨c3, _, hc3⟩
  rw [← hc3] at hcfk hr
  exact clearIfRefTargets_no_target schemaName tableName c3 hcfk r hr

/-- Witness for the amended claim C3: deleting Customers from the database
where Orders.CustomerId references it matches the cleanup-then-remove
description. -/
theorem deleteTable_cascades_witness :
    handleDeleteTable fxDbFk "dbo" "Customers" =
      (deleteTableSpec fxDbFk "dbo" "Customers", none) :=
  (deleteTable_cascades fxDbFk "dbo" "Customers" 0 0 rfl rfl).1

/-- Counterexample to claim C3 as stated: a column that mentions the
deleted table in foreignKeyRef without the isForeignKey flag keeps its
reference, so a dangling foreignKeyRef to the deleted table survives the
delete. -/
theorem deleteTable_dangling_counterexample :
    fxDanglingCol.isForeignKey = false ∧
    Option.bind
        (lookupColumn (handleDeleteTable fxDbDangling "dbo" "Customers").1
          ⟨"dbo", "Orders", "CustomerId"⟩)
        (fun c => c.foreignKeyRef) =
      some ⟨"dbo", "Customers", "Id"⟩ :=
  ⟨rfl, rfl⟩

/-- Helper: the spec-side repointing never changes the primary-key flag. -/
theorem repointColumnSpec_isPrimaryKey (s t : String) (m : List String)
    (nn : String) (c : Column) :
    (repointColumnSpec s t m nn c).isPrimaryKey = c.isPrimaryKey := by
  unfold repointColumnSpec
  split
  · rcases hr : c.foreignKeyRef with _ | r
    · simp [hr]
    · simp only [hr]
      split <;> rfl
  · rfl

/-- Helper: repointing over an empty missing-name list changes nothing. -/
theorem repointColumnSpec_nil (s t nn : String) (c : Column) :
    repointColumnSpec s t [] nn c = c := by
  unfold repointColumnSpec
  by_cases hfk : c.isForeignKey = true
  · rcases hr : c.foreignKeyRef with _ | r <;> simp [hfk, hr]
  · simp [hfk]

/-- Helper: a pointwise-identity column rewrite leaves the database
unchanged. -/
theorem mapColumnsDb_id_of (f : Column → Column) (hf : ∀ c, f c = c)
    (db : Database) : mapColumnsDb f db = db := by
  have hfid : f = id := funext hf
  simp [mapColumnsDb, hfid]

/-- Helper: two column rewrites in sequence are their composition. -/
theorem mapColumnsDb_comp (f g : Column → Column) (db : Database) :
    mapColumnsDb f (mapColumnsDb g db) = mapColumnsDb (f ∘ g) db := by
  simp [mapColumnsDb, List.map_map, Function.comp]

/-- Helper: getD at an in-range index is plain indexing. -/
theorem getD_of_lt {α : Type} (l : List α) (i : Nat) (d : α) (h : i < l.length) :
    l.getD i d = l[i] := by
  rw [List.getD_eq_getElem?_getD, List.getElem?_eq_getElem h]
  rfl

/-- Helper: positional access to a column after a whole-database rewrite. -/
theorem getD_mapColumnsDb (f : Column → Column) (db : Database)
    (si ti k : Nat) (h1 : si < db.schemas.length)
    (h2 : ti < (db.schemas.getD si defaultSchema).tables.length)
    (h3 : k < ((db.schemas.getD si defaultSchema).tables.getD ti
      defaultTable).columns.length) :
    (((mapColumnsDb f db).schemas.getD si defaultSchema).tables.getD ti
        defaultTable).columns.getD k defaultColumn =
      f (((db.schemas.getD si defaultSchema).tables.getD ti
        defaultTable).columns.getD k defaultColumn) := by
  unfold mapColumnsDb
  rw [getD_map_lt _ db.schemas si defaultSchema defaultSchema h1]
  dsimp only
  rw [getD_map_lt _ _ ti defaultTable defaultTable (by simpa using h2)]
  dsimp only
  rw [getD_map_lt _ _ k defaultColumn defaultColumn (by simpa using h3)]

/-- Helper: a column that never references the old table is untouched by
the spec-side repointing. -/
theorem repointColumnSpec_eq_self_of_no_target (s t : String) (m : List String)
    (nn : String) (c : Column)
    (h : c.isForeignKey = true → ∀ r, c.foreignKeyRef = some r →
      ¬(r.schema = s ∧ r.table = t)) :
    repointColumnSpec s t m nn c = c := by
  unfold repointColumnSpec
  by_cases hfk : c.isForeignKey = true
  · rcases hr : c.foreignKeyRef with _ | r
    · simp [hfk, hr]
    · have hne := h hfk r hr
      simp only [hfk, hr, if_true]
      split
      · rename_i hcond
        simp only [Bool.and_eq_true, beq_iff_eq] at hcond
        exact absurd ⟨hcond.1.1, hcond.1.2⟩ hne
      · rfl
  · simp [hfk]

/-- Helper: running the source per-column repoint for one more removed
name x on top of the spec-side repoint for the names m yields the
spec-side repoint for m ++ [x], provided the new name differs from x. -/
theorem repointColumn_comp_spec (s t x nn : String) (m : List String)
    (hne : nn ≠ x) (c : Column) :
    repointColumn s t x nn (repointColumnSpec s t m nn c) =
      repointColumnSpec s t (m ++ [x]) nn c := by
  by_cases hfk : c.isForeignKey = true
  · rcases hr : c.foreignKeyRef with _ | r
    · simp [repointColumn, repointColumnSpec, hfk, hr]
    · by_cases h1 : r.schema = s
      · by_cases h2 : r.table = t
        · by_cases hmem : r.column ∈ m
          · simp [repointColumn, repointColumnSpec, hfk, hr, h1, h2, hmem, hne]
          · by_cases hx : r.column = x
            · have hxm : x ∉ m := by rw [← hx]; exact hmem
              simp [repointColumn, repointColumnSpec, hfk, hr, h1, h2, hmem, hx, hxm]
            · simp [repointColumn, repointColumnSpec, hfk, hr, h1, h2, hmem, hx]
        · simp [repointColumn, repointColumnSpec, hfk, hr, h1, h2]
      · simp [repointColumn, repointColumnSpec, hfk, hr, h1]
  · simp [repointColumn, repointColumnSpec, hfk]

/-- Helper: updateForeignKeyReferences on a spec-repointed database
extends the missing-name list by the processed column name. -/
theorem updateFKRefs_mapColumnsDb (s t x : String) (m : List String)
    (newTable : Table) (db : Database) (pkc : Column)
    (hfind : newTable.columns.find? (fun c => c.isPrimaryKey) = some pkc)
    (hne : pkc.name ≠ x) :
    updateForeignKeyReferences
        (mapColumnsDb (repointColumnSpec s t m pkc.name) db) s t x newTable =
      mapColumnsDb (repointColumnSpec s t (m ++ [x]) pkc.name) db := by
  unfold updateForeignKeyReferences
  simp only [hfind]
  rw [mapColumnsDb_comp]
  have hcomp : (repointColumn s t x pkc.name ∘ repointColumnSpec s t m pkc.name) =
      repointColumnSpec s t (m ++ [x]) pkc.name :=
    funext fun c => repointColumn_comp_spec s t x pkc.name m hne c
  rw [hcomp]

/-- Claim C4 (amended): when the replacement table keeps some primary key
but drops primary-key column names, handleUpdateTable repoints and renames
every foreign-key-flagged column referencing a dropped name, then
substitutes the new table — provided no primary-key column of the old
table is itself a foreign key into the old table. -/
theorem updateTable_repoints
    (db : Database) (schemaName oldTableName : String) (newTable : Table)
    (si ti : Nat)
    (hsi : db.schemas.findIdx? (fun s => s.name == schemaName) = some si)
    (hti : (db.schemas.getD si defaultSchema).tables.findIdx?
      (fun t => t.name == oldTableName) = some ti)
    (hpk : (newTable.columns.any fun c => c.isPrimaryKey) = true)
    (hnoself : ∀ c ∈ ((db.schemas.getD si defaultSchema).tables.getD ti
        defaultTable).columns,
      c.isPrimaryKey = true → c.isForeignKey = true →
      ∀ r, c.foreignKeyRef = some r →
        ¬(r.schema = schemaName ∧ r.table = oldTableName)) :
    handleUpdateTable db schemaName oldTableName newTable =
      (updateTableSpec db schemaName oldTableName newTable si ti, none) := by
  have hb1 : si < db.schemas.length :=
    (List.findIdx?_eq_some_iff_findIdx_eq.mp hsi).1
  have hb2 : ti < (db.schemas.getD si defaultSchema).tables.length :=
    (List.findIdx?_eq_some_iff_findIdx_eq.mp hti).1
  obtain ⟨pkc, hfind⟩ : ∃ pkc,
      newTable.columns.find? (fun c => c.isPrimaryKey) = some pkc := by
    have hs : (newTable.columns.find? (fun c => c.isPrimaryKey)).isSome := by
      rw [List.find?_isSome]
      rcases List.any_eq_true.mp hpk with ⟨x, hx, hp⟩
      exact ⟨x, hx, hp⟩
    exact Option.isSome_iff_exists.mp hs
  have hpkcmem : pkc ∈ newTable.columns := List.mem_of_find?_eq_some hfind
  have hne : ∀ x : String,
      (newTable.columns.find? fun c2 => c2.name == x) = none → pkc.name ≠ x := by
    intro x hnone heq
    have hno := List.find?_eq_none.mp hnone pkc hpkcmem
    apply hno
    simp [heq]
  have hloop : ∀ k,
      k ≤ ((db.schemas.getD si defaultSchema).tables.getD ti
        defaultTable).columns.length →
      (List.range k).foldl (updateTableStep schemaName oldTableName newTable si ti)
          db =
        mapColumnsDb
          (repointColumnSpec schemaName oldTableName
            (missingPkNames
              (((db.schemas.getD si defaultSchema).tables.getD ti
                defaultTable).columns.take k) newTable) pkc.name) db := by
    intro k
    induction k with
    | zero =>
      intro _
      simp only [List.range_zero, List.foldl_nil, List.take_zero]
      exact (mapColumnsDb_id_of _
        (fun c => by simp [missingPkNames, repointColumnSpec_nil]) db).symm
    | succ k ih =>
      intro hk
      have hklt : k < ((db.schemas.getD si defaultSchema).tables.getD ti
          defaultTable).columns.length := hk
      rw [List.range_succ, List.foldl_append, ih (Nat.le_of_lt hklt),
        List.foldl_cons, List.foldl_nil]
      have hceq : ((db.schemas.getD si defaultSchema).tables.getD ti
          defaultTable).columns.getD k defaultColumn =
          ((db.schemas.getD si defaultSchema).tables.getD ti
            defaultTable).columns[k] :=
        getD_of_lt _ k defaultColumn hklt
      have hck2 : ((db.schemas.getD si defaultSchema).tables.getD ti
          defaultTable).columns[k]? =
          some (((db.schemas.getD si defaultSchema).tables.getD ti
            defaultTable).columns.getD k defaultColumn) := by
        rw [hceq]
        exact List.getElem?_eq_getElem hklt
      have hckmem : (((db.schemas.getD si defaultSchema).tables.getD ti
          defaultTable).columns.getD k defaultColumn) ∈
          ((db.schemas.getD si defaultSchema).tables.getD ti
            defaultTable).columns := by
        rw [hceq]
        exact List.getElem_mem hklt
      have hcur := getD_mapColumnsDb
        (repointColumnSpec schemaName oldTableName
          (missingPkNames
            (((db.schemas.getD si defaultSchema).tables.getD ti
              defaultTable).columns.take k) newTable) pkc.name)
        db si ti k hb1 hb2 hklt
      simp only [updateTableStep, hcur]
      by_cases hpkk : (((db.schemas.getD si defaultSchema).tables.getD ti
          defaultTable).columns.getD k defaultColumn).isPrimaryKey = true
      · have hspec_ck : repointColumnSpec schemaName oldTableName
            (missingPkNames
              (((db.schemas.getD si defaultSchema).tables.getD ti
                defaultTable).columns.take k) newTable) pkc.name
            (((db.schemas.getD si defaultSchema).tables.getD ti
              defaultTable).columns.getD k defaultColumn) =
            (((db.schemas.getD si defaultSchema).tables.getD ti
              defaultTable).columns.getD k defaultColumn) :=
          repointColumnSpec_eq_self_of_no_target _ _ _ _ _
            (fun hfk r hr => hnoself _ hckmem hpkk hfk r hr)
        rw [hspec_ck]
        by_cases hmiss : (newTable.columns.find? fun c => c.name ==
            (((db.schemas.getD si defaultSchema).tables.getD ti
              defaultTable).columns.getD k defaultColumn).name) = none
        · have hisnone : (newTable.columns.find? fun c => c.name ==
              (((db.schemas.getD si defaultSchema).tables.getD ti
                defaultTable).columns.getD k defaultColumn).name).isNone = true := by
            rw [hmiss]; rfl
          simp only [hpkk, hisnone, hpk, Bool.and_true, Bool.true_and]
          rw [if_pos trivial]
          rw [updateFKRefs_mapColumnsDb schemaName oldTableName _ _ newTable db pkc
            hfind (hne _ hmiss)]
          have hmp : missingPkNames
              (((db.schemas.getD si defaultSchema).tables.getD ti
                defaultTable).columns.take (k + 1)) newTable =
              missingPkNames
                (((db.schemas.getD si defaultSchema).tables.getD ti
                  defaultTable).columns.take k) newTable ++
              [(((db.schemas.getD si defaultSchema).tables.getD ti
                defaultTable).columns.getD k defaultColumn).name] := by
            rw [List.take_succ, hck2]
            simp only [missingPkNames, List.filter_append, List.map_append,
              Option.toList_some, List.filter_cons, List.filter_nil, hpkk,
              hisnone, Bool.and_true, Bool.true_and]
            rw [if_pos trivial]
            simp only [List.filter_nil, List.map_cons, List.map_nil]
          rw [hmp]
        · have hisnone : (newTable.columns.find? fun c => c.name ==
              (((db.schemas.getD si defaultSchema).tables.getD ti
                defaultTable).columns.getD k defaultColumn).name).isNone = false := by
            rcases ho : newTable.columns.find? fun c => c.name ==
                (((db.schemas.getD si defaultSchema).tables.getD ti
                  defaultTable).columns.getD k defaultColumn).name with _ | v
            · exact absurd ho hmiss
            · rw [ho]; rfl
          simp only [hpkk, hisnone, Bool.and_false, Bool.false_and,
            Bool.true_and]
          rw [if_neg Bool.false_ne_true]
          have hmp : missingPkNames
              (((db.schemas.getD si defaultSchema).tables.getD ti
                defaultTable).columns.take (k + 1)) newTable =
              missingPkNames
                (((db.schemas.getD si defaultSchema).tables.getD ti
                  defaultTable).columns.take k) newTable := by
            rw [List.take_succ, hck2]
            simp only [missingPkNames, List.filter_append, List.map_append,
              Option.toList_some, List.filter_cons, List.filter_nil, hpkk,
              hisnone, Bool.and_true, Bool.true_and, Bool.and_false]
            rw [if_neg Bool.false_ne_true]
            simp only [List.filter_nil, List.map_nil, List.append_nil]
          rw [hmp]
      · have hpkfalse : (((db.schemas.getD si defaultSchema).tables.getD ti
            defaultTable).columns.getD k defaultColumn).isPrimaryKey = false := by
          simpa using hpkk
        have hspecpk : (repointColumnSpec schemaName oldTableName
            (missingPkNames
              (((db.schemas.getD si defaultSchema).tables.getD ti
                defaultTable).columns.take k) newTable) pkc.name
            (((db.schemas.getD si defaultSchema).tables.getD ti
              defaultTable).columns.getD k defaultColumn)).isPrimaryKey = false := by
          rw [repointColumnSpec_isPrimaryKey]
          exact hpkfalse
        simp only [hspecpk, Bool.false_and]
        rw [if_neg Bool.false_ne_true]
        have hmp : missingPkNames
            (((db.schemas.getD si defaultSchema).tables.getD ti
              defaultTable).columns.take (k + 1)) newTable =
            missingPkNames
              (((db.schemas.getD si defaultSchema).tables.getD ti
                defaultTable).columns.take k) newTable := by
          rw [List.take_succ, hck2]
          simp only [missingPkNames, List.filter_append, List.map_append,
            Option.toList_some, List.filter_cons, List.filter_nil, hpkfalse,
            Bool.false_and]
          rw [if_neg Bool.false_ne_true]
          simp only [List.filter_nil, List.map_nil, List.append_nil]
        rw [hmp]
      -- leftover: the repointColumnSpec applied under hspec_ck in the no-op
      -- branches already matches; nothing further
  unfold handleUpdateTable updateTableSpec
  simp only [hsi, hti, hfind]
  rw [hloop _ (Nat.le_refl _), List.take_length]

/-- Witness for the amended claim C4: renaming the Customers primary key
from Id to CustomerNumber repoints and renames the referencing
Orders.CustomerId column exactly as the spec-side description says. -/
theorem updateTable_repoints_witness :
    handleUpdateTable fxDbFk "dbo" "Customers" fxRenamedPkTable =
      (updateTableSpec fxDbFk "dbo" "Customers" fxRenamedPkTable 0 0, none) :=
  updateTable_repoints fxDbFk "dbo" "Customers" fxRenamedPkTable 0 0 rfl rfl rfl
    (by decide)

/-- Counterexample to claim C4 as stated: in a table whose two primary-key
columns A and B are both dropped, where B itself references A, the
external column X.XB referencing (dbo, T, B) is neither repointed nor
renamed (the in-place rename of B during the first pass makes the loop
skip B), and the unflagged column Y.YA whose foreignKeyRef points at
(dbo, T, A) also keeps its reference and name. -/
theorem updateTable_repoints_counterexample :
    (lookupColumn (handleUpdateTable fxCx4Db "dbo" "T" fxCx4NewT).1
        ⟨"dbo", "X", "XB"⟩).map (fun c => (c.name, c.foreignKeyRef)) =
      some ("XB", some ⟨"dbo", "T", "B"⟩) ∧
    (lookupColumn (handleUpdateTable fxCx4Db "dbo" "T" fxCx4NewT).1
        ⟨"dbo", "Y", "YA"⟩).map (fun c => (c.name, c.foreignKeyRef)) =
      some ("YA", some ⟨"dbo", "T", "A"⟩) ∧
    fxCx4B.isPrimaryKey = true ∧
    (fxCx4NewT.columns.find? fun c => c.name == "B") = none ∧
    (fxCx4NewT.columns.any fun c => c.isPrimaryKey) = true := by
  refine ⟨?_, ?_, rfl, rfl, rfl⟩ <;> rfl

end SQLGem
